import Mathlib

/-!
Verification of the audit-trail integrity pipeline
(`src/audit_trail_integrity/`: `audit_trail.py`, `log_signer.py`,
`log_collector.py`, `s3_uploader.py`, `config.py`).

The repository contains two near-duplicate variants of the pipeline: the
monolithic module `audit_trail.py` and the modular set
`log_signer.py` / `log_collector.py` / `s3_uploader.py`.  Definitions below
carry the suffix `AT` when they embed the `audit_trail.py` variant and `LC`
or `LS` when they embed the `log_collector.py` / `log_signer.py` variant.

The filesystem is modelled as an association list from paths to byte
contents; paths and bytes are lists of natural numbers (character codes),
because the Lean kernel reduces those reliably.  The external RSA/PEM
primitives from the `cryptography` package are modelled as an abstract
`CryptoScheme`; theorems that depend on the documented guarantees of those
primitives take them as explicit hypotheses, and concrete schemes
(`idealScheme`, `brokenScheme`) instantiate them in witnesses.  Fallible
writes are modelled by an oracle `wok : PathC → Bool` saying which paths can
be written; an uncaught Python exception is modelled as the `none` result.
-/

/-! ## Character-code strings -/

def strCodes (s : String) : List Nat := s.data.map Char.toNat

def lowerN (n : Nat) : Nat := if 65 ≤ n ∧ n ≤ 90 then n + 32 else n

/-- Code-point rendering of `s.lower()` (ASCII, which covers all keys used). -/
def lowerCodes (s : String) : List Nat := (strCodes s).map lowerN

def subAt : List Nat → List Nat → Bool
  | [], _ => true
  | _ :: _, [] => false
  | a :: as, b :: bs => a == b && subAt as bs

/-- `hasSub needle hay = true` iff `needle` occurs contiguously in `hay`,
the semantics of the Python substring test `needle in hay`. -/
def hasSub (needle : List Nat) : List Nat → Bool
  | [] => needle.isEmpty
  | c :: rest => subAt needle (c :: rest) || hasSub needle rest

/-- `audit_trail.py` line 418: the sensitive substrings used by
`AuditTrailProcessor._sanitize_data`. -/
def sensAT (k : String) : Bool :=
  ["password", "token", "secret", "key", "authorization",
   "credit_card", "ssn", "social_security"].any
    (fun w => hasSub (strCodes w) (lowerCodes k))

/-- `log_collector.py` line 86: the sensitive substrings used by
`AuditLogger._sanitize_data`. -/
def sensLC (k : String) : Bool :=
  ["password", "token", "api_key", "secret", "credential"].any
    (fun w => hasSub (strCodes w) (lowerCodes k))

/-! ## Filesystem model -/

abbrev Bytes := List Nat

abbrev PathC := List Nat

abbrev FS := List (PathC × Bytes)

def fsRead : FS → PathC → Option Bytes
  | [], _ => none
  | (p, b) :: rest, q => if p = q then some b else fsRead rest q

def fsWrite (fs : FS) (p : PathC) (b : Bytes) : FS := (p, b) :: fs

theorem fsRead_fsWrite (fs : FS) (p : PathC) (b : Bytes) (q : PathC) :
    fsRead (fsWrite fs p b) q = if p = q then some b else fsRead fs q := rfl

/-- `config.py` / `audit_trail.py` `Config.get_private_key_path()`. -/
def privKeyPath : PathC := strCodes "keys/private_key.pem"

/-- `Config.get_public_key_path()`. -/
def pubKeyPath : PathC := strCodes "keys/public_key.pem"

/-- `Config.SIGNATURE_FILE_EXTENSION = ".sig"`. -/
def sigExt : PathC := strCodes ".sig"

/-- `Config.HASH_FILE_EXTENSION = ".sha256"`. -/
def hashExt : PathC := strCodes ".sha256"

/-- Extension of the snapshot copy made by `process_daily_logs`. -/
def snapExt : PathC := strCodes ".snapshot"

/-- `Path.name`: the component after the last slash (code 47). -/
def baseNameC (p : PathC) : PathC :=
  ((p.reverse).takeWhile (fun c => !(c == 47))).reverse

def countSlashC (p : PathC) : Nat := List.countP (fun c => c == 47) p

/-- `Path.is_absolute()` for POSIX-style paths. -/
def isAbsC : PathC → Bool
  | 47 :: _ => true
  | _ => false

/-! ## Abstract cryptographic primitives

`cryptography.hazmat.primitives` is an external library; the operations the
source calls are collected into this interface.  `genPriv` takes an entropy
index standing for the randomness consumed by `rsa.generate_private_key`,
`serPriv`/`serPub` are the PEM serializations, `loadPriv`/`loadPub` are
`load_pem_private_key`/`load_pem_public_key` (with `none` for a parse
failure), and `sign`/`verify` are PKCS#1 v1.5 signing over SHA-256 with
`verify` returning `false` for the `InvalidSignature` outcome. -/

structure CryptoScheme where
  Priv : Type
  Pub : Type
  pubOf : Priv → Pub
  sign : Priv → Bytes → Bytes
  verify : Pub → Bytes → Bytes → Bool
  genPriv : Nat → Priv
  serPriv : Priv → Bytes
  serPub : Pub → Bytes
  loadPriv : Bytes → Option Priv
  loadPub : Bytes → Option Pub

/-- A concrete perfectly-correct scheme used to instantiate witnesses:
a signature is the private key prepended to the message, and verification
recomputes it. -/
def idealScheme : CryptoScheme where
  Priv := Nat
  Pub := Nat
  pubOf := id
  sign := fun k b => k :: b
  verify := fun p b s => s == p :: b
  genPriv := id
  serPriv := fun k => [k]
  serPub := fun k => [k]
  loadPriv := fun b => match b with | [k] => some k | _ => none
  loadPub := fun b => match b with | [k] => some k | _ => none

/-- A scheme whose verification primitive always reports an invalid
signature; used to exercise the self-verification-mismatch path of
`sign_file`. -/
def brokenScheme : CryptoScheme :=
  { idealScheme with verify := fun _ _ _ => false }

theorem idealScheme_correct (k : idealScheme.Priv) (b : Bytes) :
    idealScheme.verify (idealScheme.pubOf k) b (idealScheme.sign k b) = true := by
  simp [idealScheme]

theorem idealScheme_sound (k : idealScheme.Priv) (b b' : Bytes)
    (h : idealScheme.verify (idealScheme.pubOf k) b' (idealScheme.sign k b) = true) :
    b' = b := by
  simp [idealScheme] at h
  exact h.symm

theorem idealScheme_unique (k : idealScheme.Priv) (b : Bytes) (s : Bytes)
    (h : idealScheme.verify (idealScheme.pubOf k) b s = true) :
    s = idealScheme.sign k b := by
  simpa [idealScheme] using h

/-! ## CryptographicProcessor (`log_signer.py` 31-270, `audit_trail.py` 123-351) -/

/-- `CryptographicProcessor._load_private_key`. -/
def loadPrivateKeyF (S : CryptoScheme) (fs : FS) : Option S.Priv :=
  match fsRead fs privKeyPath with
  | none => none
  | some bs => S.loadPriv bs

/-- `CryptographicProcessor._load_public_key`. -/
def loadPublicKeyF (S : CryptoScheme) (fs : FS) : Option S.Pub :=
  match fsRead fs pubKeyPath with
  | none => none
  | some bs => S.loadPub bs

/-- `CryptographicProcessor.verify_file` (`log_signer.py` 179-235,
`audit_trail.py` 258-314): missing file, missing signature, or failed key
load give `false`; `InvalidSignature` from the primitive gives `false`;
otherwise the primitive's verdict is returned. -/
def verify_file (S : CryptoScheme) (fs : FS) (filePath sigPath : PathC) : Bool :=
  match fsRead fs filePath with
  | none => false
  | some content =>
    match fsRead fs sigPath with
    | none => false
    | some sig =>
      match loadPublicKeyF S fs with
      | none => false
      | some pub => S.verify pub content sig

/-- Result of `sign_file`: the returned signature path (or `None`), the
filesystem afterwards, and the outcome of the immediate self-verification
(`none` when signing aborted before reaching it). -/
structure SignResult where
  result : Option PathC
  fs : FS
  selfVerify : Option Bool

/-- `CryptographicProcessor.sign_file` (`log_signer.py` 124-177,
`audit_trail.py` 203-256): reads the file, loads the private key, writes
the signature to `filePath + ".sig"`, immediately re-verifies, and returns
the signature path regardless of the self-verification outcome. -/
def sign_file (S : CryptoScheme) (fs : FS) (filePath : PathC) : SignResult :=
  match fsRead fs filePath with
  | none => ⟨none, fs, none⟩
  | some content =>
    match loadPrivateKeyF S fs with
    | none => ⟨none, fs, none⟩
    | some priv =>
      let sig := S.sign priv content
      let sigPath := filePath ++ sigExt
      let fs2 := fsWrite fs sigPath sig
      let v := verify_file S fs2 filePath sigPath
      ⟨some sigPath, fs2, some v⟩

/-- Result of `generate_keys`: the `(success, message)` pair plus the
filesystem afterwards. -/
structure GenResult where
  ok : Bool
  msg : String
  fs : FS

/-- `CryptographicProcessor.generate_keys` of `audit_trail.py` (126-171):
if both key files exist it returns success untouched; otherwise it
generates a key pair and writes the private key then the public key.  A
failing write raises inside the `try`, so the `except` reports failure with
everything written so far persisted. -/
def generate_keys_at (S : CryptoScheme) (wok : PathC → Bool) (entropy : Nat)
    (fs : FS) : GenResult :=
  if (fsRead fs privKeyPath).isSome && (fsRead fs pubKeyPath).isSome then
    ⟨true, "Keys already exist", fs⟩
  else
    let key := S.genPriv entropy
    let privB := S.serPriv key
    let pubB := S.serPub (S.pubOf key)
    if wok privKeyPath then
      let fs1 := fsWrite fs privKeyPath privB
      if wok pubKeyPath then
        ⟨true, "Keys generated successfully", fsWrite fs1 pubKeyPath pubB⟩
      else
        ⟨false, "Error generating keys", fs1⟩
    else
      ⟨false, "Error generating keys", fs⟩

/-- `CryptographicProcessor.generate_keys` of `log_signer.py` (31-69):
identical writing logic but with no existence check, so it always
regenerates and overwrites. -/
def generate_keys_ls (S : CryptoScheme) (wok : PathC → Bool) (entropy : Nat)
    (fs : FS) : GenResult :=
  let key := S.genPriv entropy
  let privB := S.serPriv key
  let pubB := S.serPub (S.pubOf key)
  if wok privKeyPath then
    let fs1 := fsWrite fs privKeyPath privB
    if wok pubKeyPath then
      ⟨true, "Keys generated successfully.", fsWrite fs1 pubKeyPath pubB⟩
    else
      ⟨false, "Error generating keys", fs1⟩
  else
    ⟨false, "Error generating keys", fs⟩

/-- `CryptographicProcessor.calculate_sha256`: `none` when the file is
missing, otherwise the digest of its bytes; `hashHex` stands for
`hashlib.sha256(...).hexdigest()`. -/
def calculate_sha256 (hashHex : Bytes → String) (fs : FS) (p : PathC) :
    Option String :=
  (fsRead fs p).map hashHex

/-! ## StorageProcessor (`audit_trail.py` 354-392, `s3_uploader.py` 25-119) -/

/-- `StorageProcessor.upload_to_s3`: `false` if the local file is missing;
in simulation mode always `true`; live mode succeeds per the network oracle
`netOk`, keyed by the S3 key `audit-logs/{datePre}{name}`. -/
def upload_to_s3 (sim : Bool) (netOk : PathC → Bool) (fs : FS) (p : PathC)
    (datePre : PathC) : Bool :=
  match fsRead fs p with
  | none => false
  | some _ =>
    if sim then true
    else netOk (strCodes "audit-logs/" ++ datePre ++ baseNameC p)

/-! ## AuditTrailProcessor.process_daily_logs -/

/-- Result of `process_daily_logs`: `ok = none` models an uncaught
exception, `uploads` records the outcome of each `upload_to_s3` call in
order, and the snapshot/signature paths are the ones stored on the
processor for later verification. -/
structure ProcResult where
  ok : Option Bool
  fs : FS
  snapPath : Option PathC
  sigPath : Option PathC
  uploads : List Bool

/-- `AuditTrailProcessor.process_daily_logs` of `audit_trail.py` (435-483):
snapshot-copy, hash, save hash, sign, then upload snapshot, hash and
signature; the overall flag is the conjunction of the three upload
results.  `shutil.copy2` raises when the live log is missing and that
exception is uncaught (`ok = none`); a failing snapshot write likewise
raises. -/
def process_daily_logs_at (hashHex : Bytes → String) (S : CryptoScheme)
    (wok : PathC → Bool) (sim : Bool) (netOk : PathC → Bool)
    (logPath : PathC) (datePre : PathC) (fs : FS) : ProcResult :=
  match fsRead fs logPath with
  | none => ⟨none, fs, none, none, []⟩
  | some content =>
    let snap := logPath ++ snapExt
    if wok snap then
      let fs1 := fsWrite fs snap content
      match calculate_sha256 hashHex fs1 snap with
      | none => ⟨some false, fs1, none, none, []⟩
      | some h =>
        if h = "" then ⟨some false, fs1, none, none, []⟩
        else
          let hp := snap ++ hashExt
          if wok hp then
            let fs2 := fsWrite fs1 hp (strCodes h)
            let sr := sign_file S fs2 snap
            match sr.result with
            | none => ⟨some false, sr.fs, none, none, []⟩
            | some sp =>
              let u1 := upload_to_s3 sim netOk sr.fs snap datePre
              let u2 := upload_to_s3 sim netOk sr.fs hp datePre
              let u3 := upload_to_s3 sim netOk sr.fs sp datePre
              ⟨some (u1 && u2 && u3), sr.fs, some snap, some sp, [u1, u2, u3]⟩
          else
            ⟨some false, fs1, none, none, []⟩
    else
      ⟨none, fs, none, none, []⟩

/-- `AuditTrailProcessor.process_daily_logs` of `log_signer.py` (302-345):
same snapshot-hash-sign pipeline but with no upload step at all; after a
successful signing it sets `success = True` unconditionally. -/
def process_daily_logs_ls (hashHex : Bytes → String) (S : CryptoScheme)
    (wok : PathC → Bool) (logPath : PathC) (fs : FS) : ProcResult :=
  match fsRead fs logPath with
  | none => ⟨none, fs, none, none, []⟩
  | some content =>
    let snap := logPath ++ snapExt
    if wok snap then
      let fs1 := fsWrite fs snap content
      match calculate_sha256 hashHex fs1 snap with
      | none => ⟨some false, fs1, none, none, []⟩
      | some h =>
        if h = "" then ⟨some false, fs1, none, none, []⟩
        else
          let hp := snap ++ hashExt
          if wok hp then
            let fs2 := fsWrite fs1 hp (strCodes h)
            let sr := sign_file S fs2 snap
            match sr.result with
            | none => ⟨some false, sr.fs, none, none, []⟩
            | some sp => ⟨some true, sr.fs, some snap, some sp, []⟩
          else
            ⟨some false, fs1, none, none, []⟩
    else
      ⟨none, fs, none, none, []⟩

/-- `AuditTrailProcessor.verify_logs` (`audit_trail.py` 485-521,
`log_signer.py` 347-391): resolves the log and signature paths from the
arguments or the stored seal state; when the log path resolves to `None`
the attribute access `log_path.is_absolute()` raises, modelled as `none`;
otherwise a missing file yields `some false` and an existing pair is
delegated to `verify_file`. -/
def verify_logs (S : CryptoScheme) (fs : FS)
    (storedSnap storedSig : Option PathC)
    (logArg sigArg : Option PathC) : Option Bool :=
  let lp0 := match logArg with | some x => some x | none => storedSnap
  let sp0 := match sigArg with | some x => some x | none => storedSig
  match lp0 with
  | none => none
  | some lp1 =>
    let lp := if !(isAbsC lp1) && (countSlashC lp1 == 0)
              then strCodes "logs/" ++ lp1 else lp1
    match fsRead fs lp with
    | none => some false
    | some _ =>
      let sp := match sp0 with
        | some x => x
        | none => strCodes "signatures/" ++ baseNameC lp ++ sigExt
      match fsRead fs sp with
      | none => some false
      | some _ => some (verify_file S fs lp sp)

/-! ## JSON values and the log_collector sanitizer -/

inductive JVal where
  | s : String → JVal
  | i : Int → JVal
  | b : Bool → JVal
  | null : JVal
  | obj : List (String × JVal) → JVal
  | arr : List JVal → JVal
deriving Repr

def lookupKey : List (String × JVal) → String → Option JVal
  | [], _ => none
  | (k, v) :: rest, q => if k = q then some v else lookupKey rest q

mutual
/-- `AuditLogger._sanitize_data` of `log_collector.py` (73-96): non-mapping
input is returned unchanged; a mapping is rebuilt entry by entry. -/
def sanitize_data_lc : JVal → JVal
  | JVal.obj es => JVal.obj (sanListLC es)
  | v => v

def sanListLC : List (String × JVal) → List (String × JVal)
  | [] => []
  | (k, v) :: rest => (k, sanEntryLC k v) :: sanListLC rest

/-- One entry of the `log_collector.py` sanitizer loop: a mapping value is
recursed into (this branch is checked first, before the sensitivity test);
otherwise a sensitive key gets `"[REDACTED]"` and anything else is kept. -/
def sanEntryLC : String → JVal → JVal
  | _, JVal.obj es => JVal.obj (sanListLC es)
  | k, v => if sensLC k then JVal.s "[REDACTED]" else v
end

/-! ## Heap model for the audit_trail sanitizer

`AuditTrailProcessor._sanitize_data` of `audit_trail.py` (415-433) takes a
shallow copy of the top-level dict and then redacts **in place** via
`_redact_sensitive`.  Python dicts are heap objects, so the embedding uses
an explicit heap: `PVal.ref a` is a pointer to the dict stored at address
`a`.  The recursion of `_redact_sensitive` walks the heap, so it is driven
by fuel over a worklist; any fuel at least the number of reachable values
computes the same result as the Python code on acyclic inputs. -/

inductive PVal where
  | s : String → PVal
  | i : Int → PVal
  | ref : Nat → PVal
  | lst : List PVal → PVal
deriving Repr

abbrev PDict := List (String × PVal)

abbrev Heap := List PDict

def heapGet (h : Heap) (a : Nat) : PDict := (h.get? a).getD []

def heapSet : Heap → Nat → PDict → Heap
  | [], _, _ => []
  | _ :: rest, 0, d => d :: rest
  | x :: rest, n + 1, d => x :: heapSet rest n d

/-- Python `obj[k] = v` on a dict with unique keys. -/
def dictSet (d : PDict) (k : String) (v : PVal) : PDict :=
  d.map (fun kv => if kv.1 = k then (k, v) else kv)

/-- Worklist item: a value still to visit, or a pending `(key, value)`
entry of the dict at the given address. -/
inductive WItem where
  | val : PVal → WItem
  | ent : Nat → String → PVal → WItem

/-- The `_redact_sensitive` traversal of `audit_trail.py` (421-430): a dict
reference expands into its current entries; a sensitive key is redacted in
place in the heap; a non-sensitive value is visited recursively; list
elements are visited in order. -/
def redactGo : Nat → Heap → List WItem → Heap
  | 0, h, _ => h
  | _ + 1, h, [] => h
  | f + 1, h, WItem.val (PVal.ref a) :: rest =>
      redactGo f h ((heapGet h a).map (fun kv => WItem.ent a kv.1 kv.2) ++ rest)
  | f + 1, h, WItem.val (PVal.lst l) :: rest =>
      redactGo f h (l.map WItem.val ++ rest)
  | f + 1, h, WItem.val _ :: rest => redactGo f h rest
  | f + 1, h, WItem.ent a k v :: rest =>
      if sensAT k then
        redactGo f (heapSet h a (dictSet (heapGet h a) k (PVal.s "[REDACTED]"))) rest
      else
        redactGo f h (WItem.val v :: rest)

/-- `AuditTrailProcessor._sanitize_data`: `sanitized = data.copy()` allocates
a fresh top-level dict sharing every nested reference, then
`_redact_sensitive(sanitized)` mutates the heap.  Returns the address of
the copy and the heap afterwards. -/
def sanitize_data_at_heap (fuel : Nat) (heap : Heap) (a : Nat) : Nat × Heap :=
  let n := heap.length
  let heap1 := heap ++ [heapGet heap a]
  (n, redactGo fuel heap1 [WItem.val (PVal.ref n)])

/-! ## json.dumps

`json.dumps` with its defaults (separators `", "` and `": "`,
`ensure_ascii=True`), modelled after the CPython encoder: strings are
double-quoted with backslash escapes for quote, backslash, the short
control escapes, other characters outside `0x20`-`0x7e` as `\uXXXX`
(surrogate pairs above `0xFFFF`). -/

def hexChar (n : Nat) : Char :=
  if n < 10 then Char.ofNat (48 + n) else Char.ofNat (87 + n)

def hex4 (n : Nat) : String :=
  String.mk [hexChar (n / 4096 % 16), hexChar (n / 256 % 16),
    hexChar (n / 16 % 16), hexChar (n % 16)]

def escChar (c : Char) : String :=
  if c = '\"' then "\\\""
  else if c = '\\' then "\\\\"
  else if c = '\n' then "\\n"
  else if c = '\t' then "\\t"
  else if c = '\r' then "\\r"
  else if c.toNat = 8 then "\\b"
  else if c.toNat = 12 then "\\f"
  else if c.toNat < 32 ∨ 126 < c.toNat then
    if c.toNat < 65536 then "\\u" ++ hex4 c.toNat
    else "\\u" ++ hex4 (55296 + (c.toNat - 65536) / 1024) ++
         "\\u" ++ hex4 (56320 + (c.toNat - 65536) % 1024)
  else String.singleton c

def dumpsStr (s : String) : String :=
  "\"" ++ String.join (s.data.map escChar) ++ "\""

mutual
def dumpsJ : JVal → String
  | JVal.s s => dumpsStr s
  | JVal.i n => toString n
  | JVal.b true => "true"
  | JVal.b false => "false"
  | JVal.null => "null"
  | JVal.obj es => "\x7b" ++ dumpsEntries es ++ "\x7d"
  | JVal.arr l => "[" ++ dumpsList l ++ "]"

def dumpsEntries : List (String × JVal) → String
  | [] => ""
  | [(k, v)] => dumpsStr k ++ ": " ++ dumpsJ v
  | (k, v) :: rest => dumpsStr k ++ ": " ++ dumpsJ v ++ ", " ++ dumpsEntries rest

def dumpsList : List JVal → String
  | [] => ""
  | [v] => dumpsJ v
  | v :: rest => dumpsJ v ++ ", " ++ dumpsList rest
end

/-! ## AuditLogger.log_event (`audit_trail.py` 104-120) -/

/-- Result of `log_event`: the returned event id and the daily log as the
list of physical lines the file handler wrote. -/
structure LogEventResult where
  eventId : String
  log : List String

/-- `AuditLogger.log_event` of `audit_trail.py` (104-120): assembles the
record with `event_id`, `timestamp`, `event_type`, `details` exactly as
passed, adds `user_id` only when it is supplied and truthy (non-empty),
and emits `logger.info(f"AUDIT: {json.dumps(event_data)}")`.  The file
handler installed in `_setup_file_handler` (82-93) renders that through
the formatter `%(asctime)s - %(levelname)s - %(message)s`, so the one line
appended to the daily log is
`<asctime> - INFO - AUDIT: <json.dumps(record)>`, and the event id is
returned.  The fresh UUID, the UTC timestamp and the formatter's asctime
are inputs of the model. -/
def log_event_at (eventType : String) (details : JVal) (userId : Option String)
    (eventId timestamp asc : String) (log : List String) : LogEventResult :=
  let base := [("event_id", JVal.s eventId), ("timestamp", JVal.s timestamp),
               ("event_type", JVal.s eventType), ("details", details)]
  let entries := match userId with
    | some u => if u = "" then base else base ++ [("user_id", JVal.s u)]
    | none => base
  ⟨eventId, log ++ [asc ++ " - INFO - AUDIT: " ++ dumpsJ (JVal.obj entries)]⟩

/-! ## Concrete fixtures used by witnesses and counterexamples -/

/-- A filesystem holding a matching `idealScheme` key pair and a file to sign. -/
def fsC1 : FS := [(privKeyPath, [5]), (pubKeyPath, [5]), (strCodes "f", [1, 2])]

/-- A filesystem with only a private key and a file, for the broken scheme. -/
def fsBrk : FS := [(privKeyPath, [5]), (strCodes "f", [1])]

/-- A filesystem with a daily log and a key pair, for the sealing pipeline. -/
def fsLog : FS := [(strCodes "logs/a.log", [1]), (privKeyPath, [5]), (pubKeyPath, [5])]

/-- A filesystem where both key files already exist with content `[0]`. -/
def fsKeys0 : FS := [(privKeyPath, [0]), (pubKeyPath, [0])]

/-- A filesystem on which verification succeeds outright. -/
def fsVer : FS :=
  [(strCodes "f", [1, 2]), (strCodes "f" ++ sigExt, [5, 1, 2]), (pubKeyPath, [5])]

/-- The heap for `{"nested": {"token": "y"}}`: the outer dict at address 0,
the inner dict at address 1. -/
def heapNested : Heap := [[("nested", PVal.ref 1)], [("token", PVal.s "y")]]

/-- A hash primitive stub for concrete runs. -/
def hashH : Bytes → String := fun _ => "h"

/-- Write oracle under which every write succeeds. -/
def wokAll : PathC → Bool := fun _ => true

/-- Write oracle under which exactly the public-key write fails. -/
def wokNoPub : PathC → Bool := fun p => if p = pubKeyPath then false else true

/-! ## Helper lemmas -/

theorem sigExt_append_ne (f : PathC) : f ++ sigExt ≠ f := by
  intro h
  have hl := congrArg List.length h
  rw [List.length_append] at hl
  simp [sigExt, strCodes] at hl

theorem privKeyPath_ne_pubKeyPath : privKeyPath ≠ pubKeyPath := by decide

theorem pubKeyPath_ne_privKeyPath : pubKeyPath ≠ privKeyPath := by decide

/-! ## Theorems for the claims -/

/-- Claim C10: on an orchestrator with no stored seal state, `verify_logs`
with no arguments dereferences the unresolved `None` log path
(`log_path.is_absolute()`) and raises instead of returning `false`. -/
theorem verify_logs_unsealed_raises (S : CryptoScheme) (fs : FS) :
    verify_logs S fs none none none none = none := rfl

/-- Claim C6: `verify_file` fails closed — it returns `false` when the
target file is missing, when the signature file is missing, or when the
public key fails to load, and it returns `true` only when all three loads
succeed and the cryptographic primitive accepts the signature (an invalid
signature surfacing as the primitive returning `false`, not as an
exception). -/
theorem verify_file_fails_closed (S : CryptoScheme) (fs : FS) (f sp : PathC) :
    (fsRead fs f = none → verify_file S fs f sp = false) ∧
    (fsRead fs sp = none → verify_file S fs f sp = false) ∧
    (loadPublicKeyF S fs = none → verify_file S fs f sp = false) ∧
    (verify_file S fs f sp = true →
      ∃ c sg pub, fsRead fs f = some c ∧ fsRead fs sp = some sg ∧
        loadPublicKeyF S fs = some pub ∧ S.verify pub c sg = true) := by
  refine ⟨fun h => by simp [verify_file, h], fun h => ?_, fun h => ?_, fun h => ?_⟩
  · cases hf : fsRead fs f <;> simp [verify_file, hf, h]
  · cases hf : fsRead fs f <;> cases hs : fsRead fs sp <;>
      simp [verify_file, hf, hs, h]
  · cases hf : fsRead fs f with
    | none => simp [verify_file, hf] at h
    | some c =>
      cases hs : fsRead fs sp with
      | none => simp [verify_file, hf, hs] at h
      | some sg =>
        cases hp : loadPublicKeyF S fs with
        | none => simp [verify_file, hf, hs, hp] at h
        | some pub =>
          simp only [verify_file, hf, hs, hp] at h
          exact ⟨c, sg, pub, rfl, rfl, rfl, h⟩

/-- Witness for C6: concrete runs hitting the missing-file, missing-
signature, missing-key and successful branches. -/
theorem verify_file_fails_closed_witness :
    verify_file idealScheme [] (strCodes "a") (strCodes "b") = false ∧
    verify_file idealScheme [(strCodes "a", [1])] (strCodes "a") (strCodes "b") = false ∧
    verify_file idealScheme [(strCodes "a", [1]), (strCodes "b", [2])]
      (strCodes "a") (strCodes "b") = false ∧
    (∃ c sg pub, fsRead fsVer (strCodes "f") = some c ∧
      fsRead fsVer (strCodes "f" ++ sigExt) = some sg ∧
      loadPublicKeyF idealScheme fsVer = some pub ∧
      idealScheme.verify pub c sg = true) :=
  ⟨(verify_file_fails_closed idealScheme [] (strCodes "a") (strCodes "b")).1 rfl,
   (verify_file_fails_closed idealScheme [(strCodes "a", [1])]
      (strCodes "a") (strCodes "b")).2.1 (by decide),
   (verify_file_fails_closed idealScheme [(strCodes "a", [1]), (strCodes "b", [2])]
      (strCodes "a") (strCodes "b")).2.2.1 rfl,
   (verify_file_fails_closed idealScheme fsVer
      (strCodes "f") (strCodes "f" ++ sigExt)).2.2.2 (by decide)⟩

/-- Claim C8: whenever `sign_file` reaches the self-verification step, the
self-verification outcome is recorded against the state that includes the
fresh signature, and the function returns the signature path regardless of
that outcome — a mismatch is only a diagnostic, not a failure. -/
theorem sign_file_selfVerify_diagnostic (S : CryptoScheme) (fs : FS)
    (f : PathC) (b : Bool)
    (h : (sign_file S fs f).selfVerify = some b) :
    (sign_file S fs f).result = some (f ++ sigExt) ∧
    (sign_file S fs f).selfVerify =
      some (verify_file S (sign_file S fs f).fs f (f ++ sigExt)) := by
  cases hf : fsRead fs f with
  | none => simp [sign_file, hf] at h
  | some content =>
    cases hp : loadPrivateKeyF S fs with
    | none => simp [sign_file, hf, hp] at h
    | some priv => exact ⟨by simp [sign_file, hf, hp], by simp [sign_file, hf, hp]⟩

/-- Witness for C8: under a scheme whose verification primitive always
reports mismatch, the self-verification is `false` and the signature path
is still returned. -/
theorem sign_file_selfVerify_diagnostic_witness :
    (sign_file brokenScheme fsBrk (strCodes "f")).selfVerify = some false ∧
    (sign_file brokenScheme fsBrk (strCodes "f")).result =
      some (strCodes "f" ++ sigExt) :=
  ⟨by decide,
   (sign_file_selfVerify_diagnostic brokenScheme fsBrk (strCodes "f") false
      (by decide)).1⟩

/-- Counterexample for C3: `generate_keys` of `log_signer.py` is not
idempotent — with both key files already present (content `[0]`), a call
with fresh entropy reports success but overwrites both files with new
content. -/
theorem generate_keys_ls_overwrites_cex :
    fsRead fsKeys0 privKeyPath = some [0] ∧
    fsRead fsKeys0 pubKeyPath = some [0] ∧
    (generate_keys_ls idealScheme wokAll 1 fsKeys0).ok = true ∧
    fsRead (generate_keys_ls idealScheme wokAll 1 fsKeys0).fs privKeyPath = some [1] ∧
    fsRead (generate_keys_ls idealScheme wokAll 1 fsKeys0).fs pubKeyPath = some [1] ∧
    ([1] : Bytes) ≠ [0] := by decide

/-- Claim C3 (amended): `generate_keys` of `audit_trail.py` is idempotent —
when both key files already exist, it returns success leaving the
filesystem unchanged, and a second call does the same. -/
theorem generate_keys_at_idempotent (S : CryptoScheme) (wok : PathC → Bool)
    (e1 e2 : Nat) (fs : FS)
    (h1 : (fsRead fs privKeyPath).isSome = true)
    (h2 : (fsRead fs pubKeyPath).isSome = true) :
    (generate_keys_at S wok e1 fs).ok = true ∧
    (generate_keys_at S wok e1 fs).fs = fs ∧
    (generate_keys_at S wok e2 (generate_keys_at S wok e1 fs).fs).ok = true ∧
    (generate_keys_at S wok e2 (generate_keys_at S wok e1 fs).fs).fs = fs := by
  have hfs : generate_keys_at S wok e1 fs = ⟨true, "Keys already exist", fs⟩ := by
    simp [generate_keys_at, h1, h2]
  refine ⟨by rw [hfs], by rw [hfs], ?_, ?_⟩ <;>
    rw [hfs] <;> simp [generate_keys_at, h1, h2]

/-- Witness for C3: both key files exist concretely; both calls succeed and
leave the filesystem identical. -/
theorem generate_keys_at_idempotent_witness :
    (generate_keys_at idealScheme wokAll 1 fsKeys0).ok = true ∧
    (generate_keys_at idealScheme wokAll 1 fsKeys0).fs = fsKeys0 ∧
    (generate_keys_at idealScheme wokAll 2
      (generate_keys_at idealScheme wokAll 1 fsKeys0).fs).ok = true ∧
    (generate_keys_at idealScheme wokAll 2
      (generate_keys_at idealScheme wokAll 1 fsKeys0).fs).fs = fsKeys0 :=
  generate_keys_at_idempotent idealScheme wokAll 1 2 fsKeys0 (by decide) (by decide)

/-- Counterexample for C7: starting from an empty filesystem, when the
private-key write succeeds and the public-key write fails, `generate_keys`
reports failure but leaves only the private key file behind — a partial
write. -/
theorem generate_keys_at_halfWrite_cex :
    (generate_keys_at idealScheme wokNoPub 3 []).ok = false ∧
    (fsRead (generate_keys_at idealScheme wokNoPub 3 []).fs privKeyPath).isSome = true ∧
    fsRead (generate_keys_at idealScheme wokNoPub 3 []).fs pubKeyPath = none := by
  decide

/-- Claim C7 (amended): starting from a state with neither key file,
`generate_keys` either succeeds with both files written, or fails with
neither written, or — exactly when the private-key write succeeds and the
public-key write fails — fails with only the private key file present. -/
theorem generate_keys_at_write_outcomes (S : CryptoScheme) (wok : PathC → Bool)
    (e : Nat) (fs : FS)
    (h1 : fsRead fs privKeyPath = none) (h2 : fsRead fs pubKeyPath = none) :
    ((generate_keys_at S wok e fs).ok = true ∧
      (fsRead (generate_keys_at S wok e fs).fs privKeyPath).isSome = true ∧
      (fsRead (generate_keys_at S wok e fs).fs pubKeyPath).isSome = true) ∨
    ((generate_keys_at S wok e fs).ok = false ∧
      fsRead (generate_keys_at S wok e fs).fs privKeyPath = none ∧
      fsRead (generate_keys_at S wok e fs).fs pubKeyPath = none) ∨
    ((generate_keys_at S wok e fs).ok = false ∧
      wok privKeyPath = true ∧ wok pubKeyPath = false ∧
      (fsRead (generate_keys_at S wok e fs).fs privKeyPath).isSome = true ∧
      fsRead (generate_keys_at S wok e fs).fs pubKeyPath = none) := by
  cases hwp : wok privKeyPath with
  | false =>
    right; left
    simp [generate_keys_at, h1, h2, hwp]
  | true =>
    cases hwq : wok pubKeyPath with
    | false =>
      right; right
      simp [generate_keys_at, h1, h2, hwp, hwq, fsRead_fsWrite,
        privKeyPath_ne_pubKeyPath]
    | true =>
      left
      simp [generate_keys_at, h1, h2, hwp, hwq, fsRead_fsWrite,
        privKeyPath_ne_pubKeyPath, pubKeyPath_ne_privKeyPath]

/-- Witness for C7: on the empty filesystem with all writes succeeding, the
trichotomy instantiates (first branch holds). -/
theorem generate_keys_at_write_outcomes_witness :
    ((generate_keys_at idealScheme wokAll 3 []).ok = true ∧
      (fsRead (generate_keys_at idealScheme wokAll 3 []).fs privKeyPath).isSome = true ∧
      (fsRead (generate_keys_at idealScheme wokAll 3 []).fs pubKeyPath).isSome = true) ∨
    ((generate_keys_at idealScheme wokAll 3 []).ok = false ∧
      fsRead (generate_keys_at idealScheme wokAll 3 []).fs privKeyPath = none ∧
      fsRead (generate_keys_at idealScheme wokAll 3 []).fs pubKeyPath = none) ∨
    ((generate_keys_at idealScheme wokAll 3 []).ok = false ∧
      wokAll privKeyPath = true ∧ wokAll pubKeyPath = false ∧
      (fsRead (generate_keys_at idealScheme wokAll 3 []).fs privKeyPath).isSome = true ∧
      fsRead (generate_keys_at idealScheme wokAll 3 []).fs pubKeyPath = none) :=
  generate_keys_at_write_outcomes idealScheme wokAll 3 [] rfl rfl

/-- Claim C5 (code bug): sanitizing `{"nested": {"token": "y"}}` with the
`audit_trail.py` sanitizer mutates the nested dict of the input in place:
after the call the dict at address 1 — reachable from the input — holds
`"[REDACTED]"` where the input held `"y"`. -/
theorem sanitize_data_at_mutates_nested :
    heapGet heapNested 1 = [("token", PVal.s "y")] ∧
    heapGet (sanitize_data_at_heap 10 heapNested 0).2 1 =
      [("token", PVal.s "[REDACTED]")] ∧
    ("y" : String) ≠ "[REDACTED]" :=
  ⟨rfl, rfl, by decide⟩

/-- Counterexample for C4: the `log_collector.py` sanitizer keeps the value
under the key `"ssn"` unchanged, although the claimed substring set
contains `"ssn"` and demands `"[REDACTED]"`. -/
theorem sanitize_data_lc_keeps_ssn_cex :
    sanitize_data_lc (JVal.obj [("ssn", JVal.s "123-45-6789")]) =
      JVal.obj [("ssn", JVal.s "123-45-6789")] ∧
    ("123-45-6789" : String) ≠ "[REDACTED]" := by
  refine ⟨?_, by decide⟩
  simp [sanitize_data_lc, sanListLC, sanEntryLC,
    show sensLC "ssn" = false from by decide]

/-- Claim C4 (amended): the `log_collector.py` sanitizer maps each entry
pointwise — a mapping value is recursed into (even under a sensitive key),
and otherwise the value is replaced by `"[REDACTED]"` exactly when the
lowercased key contains one of `password`, `token`, `api_key`, `secret`,
`credential`; lookups commute with sanitization, and the worked example of
the specification holds with this substring set. -/
theorem sanitize_data_lc_lookup_spec :
    (∀ (es : List (String × JVal)) (q : String),
      lookupKey (sanListLC es) q = (lookupKey es q).map (sanEntryLC q)) ∧
    sanitize_data_lc (JVal.obj [("password", JVal.s "x"),
        ("nested", JVal.obj [("token", JVal.s "y"), ("ok", JVal.s "z")])]) =
      JVal.obj [("password", JVal.s "[REDACTED]"),
        ("nested", JVal.obj [("token", JVal.s "[REDACTED]"), ("ok", JVal.s "z")])] := by
  constructor
  · intro es q
    induction es with
    | nil => simp [sanListLC, lookupKey]
    | cons kv rest ih =>
      obtain ⟨k, v⟩ := kv
      by_cases h : k = q
      · subst h; simp [sanListLC, lookupKey]
      · simp [sanListLC, lookupKey, h, ih]
  · simp [sanitize_data_lc, sanListLC, sanEntryLC,
      show sensLC "password" = true from by decide,
      show sensLC "token" = true from by decide,
      show sensLC "ok" = false from by decide]


/-- Claim C1: under the documented guarantees of the signature primitive
(correctness, and acceptance only of the signature the matching private key
produces), `sign_file` followed by `verify_file` on the same bytes
succeeds, and verification fails for every modified content and for every
byte string that is not the signature the key holder produced. -/
theorem sign_file_verify_file_roundtrip (S : CryptoScheme) (k : S.Priv)
    (fs : FS) (f : PathC) (B : Bytes)
    (hcorr : ∀ (k : S.Priv) (b : Bytes),
      S.verify (S.pubOf k) b (S.sign k b) = true)
    (hsound : ∀ (k : S.Priv) (b b' : Bytes),
      S.verify (S.pubOf k) b' (S.sign k b) = true → b' = b)
    (huniq : ∀ (k : S.Priv) (b s : Bytes),
      S.verify (S.pubOf k) b s = true → s = S.sign k b)
    (hldP : S.loadPriv (S.serPriv k) = some k)
    (hldQ : S.loadPub (S.serPub (S.pubOf k)) = some (S.pubOf k))
    (hP : fsRead fs privKeyPath = some (S.serPriv k))
    (hQ : fsRead fs pubKeyPath = some (S.serPub (S.pubOf k)))
    (hF : fsRead fs f = some B)
    (hne1 : f ++ sigExt ≠ pubKeyPath)
    (hne2 : f ≠ pubKeyPath) :
    (sign_file S fs f).result = some (f ++ sigExt) ∧
    verify_file S (sign_file S fs f).fs f (f ++ sigExt) = true ∧
    (∀ B', B' ≠ B →
      verify_file S (fsWrite (sign_file S fs f).fs f B') f (f ++ sigExt) = false) ∧
    (∀ s', s' ≠ S.sign k B →
      verify_file S (fsWrite (sign_file S fs f).fs (f ++ sigExt) s') f
        (f ++ sigExt) = false) := by
  have hsf : sign_file S fs f =
      ⟨some (f ++ sigExt), fsWrite fs (f ++ sigExt) (S.sign k B),
        some (verify_file S (fsWrite fs (f ++ sigExt) (S.sign k B)) f
          (f ++ sigExt))⟩ := by
    simp [sign_file, hF, loadPrivateKeyF, hP, hldP]
  have hr1 : fsRead (fsWrite fs (f ++ sigExt) (S.sign k B)) f = some B := by
    rw [fsRead_fsWrite, if_neg (sigExt_append_ne f)]
    exact hF
  have hr2 : fsRead (fsWrite fs (f ++ sigExt) (S.sign k B)) (f ++ sigExt) =
      some (S.sign k B) := by
    rw [fsRead_fsWrite, if_pos rfl]
  have hr3 : loadPublicKeyF S (fsWrite fs (f ++ sigExt) (S.sign k B)) =
      some (S.pubOf k) := by
    rw [loadPublicKeyF, fsRead_fsWrite, if_neg hne1, hQ]
    exact hldQ
  refine ⟨by rw [hsf], ?_, ?_, ?_⟩
  · rw [hsf]
    simp [verify_file, hr1, hr2, hr3, hcorr]
  · intro B' hB'
    rw [hsf]
    have hw1 : fsRead (fsWrite (fsWrite fs (f ++ sigExt) (S.sign k B)) f B') f =
        some B' := by rw [fsRead_fsWrite, if_pos rfl]
    have hw2 : fsRead (fsWrite (fsWrite fs (f ++ sigExt) (S.sign k B)) f B')
        (f ++ sigExt) = some (S.sign k B) := by
      rw [fsRead_fsWrite, if_neg (Ne.symm (sigExt_append_ne f)), hr2]
    have hw3 : loadPublicKeyF S
        (fsWrite (fsWrite fs (f ++ sigExt) (S.sign k B)) f B') =
        some (S.pubOf k) := by
      rw [loadPublicKeyF, fsRead_fsWrite, if_neg hne2]
      rw [loadPublicKeyF] at hr3
      exact hr3
    simp only [verify_file, hw1, hw2, hw3]
    cases hv : S.verify (S.pubOf k) B' (S.sign k B) with
    | false => rfl
    | true => exact absurd (hsound k B B' hv) hB'
  · intro s' hs'
    rw [hsf]
    have hw1 : fsRead (fsWrite (fsWrite fs (f ++ sigExt) (S.sign k B))
        (f ++ sigExt) s') f = some B := by
      rw [fsRead_fsWrite, if_neg (sigExt_append_ne f), hr1]
    have hw2 : fsRead (fsWrite (fsWrite fs (f ++ sigExt) (S.sign k B))
        (f ++ sigExt) s') (f ++ sigExt) = some s' := by
      rw [fsRead_fsWrite, if_pos rfl]
    have hw3 : loadPublicKeyF S
        (fsWrite (fsWrite fs (f ++ sigExt) (S.sign k B)) (f ++ sigExt) s') =
        some (S.pubOf k) := by
      rw [loadPublicKeyF, fsRead_fsWrite, if_neg hne1]
      rw [loadPublicKeyF] at hr3
      exact hr3
    simp only [verify_file, hw1, hw2, hw3]
    cases hv : S.verify (S.pubOf k) B s' with
    | false => rfl
    | true => exact absurd (huniq k B s' hv) hs'

/-- Witness for C1: a concrete sign-then-verify run succeeds, and flipping
the content to `[9]` makes verification fail. -/
theorem sign_file_verify_file_roundtrip_witness :
    (sign_file idealScheme fsC1 (strCodes "f")).result =
      some (strCodes "f" ++ sigExt) ∧
    verify_file idealScheme (sign_file idealScheme fsC1 (strCodes "f")).fs
      (strCodes "f") (strCodes "f" ++ sigExt) = true ∧
    verify_file idealScheme
      (fsWrite (sign_file idealScheme fsC1 (strCodes "f")).fs (strCodes "f") [9])
      (strCodes "f") (strCodes "f" ++ sigExt) = false := by
  have h := sign_file_verify_file_roundtrip idealScheme (5 : Nat) fsC1
    (strCodes "f") [1, 2] idealScheme_correct idealScheme_sound
    idealScheme_unique rfl rfl (by decide) (by decide)
    (by decide) (by decide) (by decide)
  exact ⟨h.1, h.2.1, h.2.2.1 [9] (by decide)⟩

/-- Counterexample for C2: `process_daily_logs` of `log_signer.py` reports
overall success on a concrete run in which no upload to the archive store
happened at all (its upload trace is empty), so success does not require
three successful uploads there. -/
theorem process_daily_logs_ls_success_without_uploads_cex :
    (process_daily_logs_ls hashH idealScheme wokAll
      (strCodes "logs/a.log") fsLog).ok = some true ∧
    (process_daily_logs_ls hashH idealScheme wokAll
      (strCodes "logs/a.log") fsLog).uploads = [] := by decide

/-- Claim C2 (amended): `process_daily_logs` of `audit_trail.py` reports
overall success only when all three uploads (snapshot, hash record,
signature) succeed — whenever it returns `True`, the recorded upload
outcomes are exactly `[true, true, true]`, so any single failed upload
forces overall failure. -/
theorem process_daily_logs_at_success_requires_uploads
    (hashHex : Bytes → String) (S : CryptoScheme) (wok : PathC → Bool)
    (sim : Bool) (netOk : PathC → Bool) (logPath datePre : PathC) (fs : FS)
    (h : (process_daily_logs_at hashHex S wok sim netOk logPath datePre fs).ok =
      some true) :
    (process_daily_logs_at hashHex S wok sim netOk logPath datePre fs).uploads =
      [true, true, true] := by
  revert h
  unfold process_daily_logs_at
  split
  · intro h; simp at h
  · dsimp only
    split
    · split
      · intro h; simp at h
      · split
        · intro h; simp at h
        · split
          · split
            · intro h; simp at h
            · intro h
              simp at h
              simp_all
          · intro h; simp at h
    · intro h; simp at h

/-- Witness for C2: a concrete simulated run in which sealing succeeds;
the three upload outcomes are all `true`. -/
theorem process_daily_logs_at_success_requires_uploads_witness :
    (process_daily_logs_at hashH idealScheme wokAll true wokAll
      (strCodes "logs/a.log") (strCodes "2025/01/01/") fsLog).uploads =
      [true, true, true] :=
  process_daily_logs_at_success_requires_uploads hashH idealScheme wokAll true
    wokAll (strCodes "logs/a.log") (strCodes "2025/01/01/") fsLog (by decide)

/-- Counterexample for C9: `log_event` writes the `details` mapping exactly
as passed — calling it directly with `{"password": "x"}` logs the sensitive
value unredacted, although the claimed record shape says the details in the
logged line are sanitized (both sanitizers would redact this key); the
concrete line also carries the formatter preamble and the `AUDIT: ` marker
in front of the serialized record. -/
theorem log_event_at_unsanitized_cex :
    (log_event_at "api_request" (JVal.obj [("password", JVal.s "x")])
      (some "u1") "id1" "t1" "2026-01-01 00:00:00,000" []).log =
      ["2026-01-01 00:00:00,000 - INFO - AUDIT: " ++
        dumpsJ (JVal.obj [("event_id", JVal.s "id1"), ("timestamp", JVal.s "t1"),
          ("event_type", JVal.s "api_request"),
          ("details", JVal.obj [("password", JVal.s "x")]),
          ("user_id", JVal.s "u1")])] ∧
    sensAT "password" = true ∧ sensLC "password" = true ∧
    ("x" : String) ≠ "[REDACTED]" := by
  refine ⟨?_, by decide, by decide, by decide⟩
  rfl

/-- Claim C9 (amended): every call to `log_event` appends exactly one line
to the daily log; the line is the formatter rendering
`<asctime> - INFO - AUDIT: ` followed by the JSON serialization of the
single record object `{event_id, timestamp, event_type, details,
user_id?}` — so the physical line is strictly longer than, and never equal
to, the bare JSON object.  `details` is included exactly as passed by the
caller (sanitization happens in `log_api_event` before the call),
`user_id` is present iff supplied and non-empty, and the returned event id
is the one in the record. -/
theorem log_event_at_record_shape (et : String) (det : JVal)
    (uid : Option String) (eid ts asc : String) (log : List String) :
    (log_event_at et det uid eid ts asc log).eventId = eid ∧
    ∃ entries, (log_event_at et det uid eid ts asc log).log =
        log ++ [asc ++ " - INFO - AUDIT: " ++ dumpsJ (JVal.obj entries)] ∧
      asc ++ " - INFO - AUDIT: " ++ dumpsJ (JVal.obj entries) ≠
        dumpsJ (JVal.obj entries) ∧
      lookupKey entries "event_id" = some (JVal.s eid) ∧
      lookupKey entries "timestamp" = some (JVal.s ts) ∧
      lookupKey entries "event_type" = some (JVal.s et) ∧
      lookupKey entries "details" = some det ∧
      lookupKey entries "user_id" =
        (match uid with
         | some u => if u = "" then none else some (JVal.s u)
         | none => none) := by
  have hline : ∀ e : List (String × JVal),
      asc ++ " - INFO - AUDIT: " ++ dumpsJ (JVal.obj e) ≠ dumpsJ (JVal.obj e) := by
    intro e h
    have hl := congrArg String.length h
    rw [String.length_append, String.length_append] at hl
    have h17 : (" - INFO - AUDIT: ").length = 17 := by decide
    omega
  refine ⟨rfl, ?_⟩
  cases uid with
  | none =>
    refine ⟨[("event_id", JVal.s eid), ("timestamp", JVal.s ts),
      ("event_type", JVal.s et), ("details", det)],
      rfl, hline _, ?_, ?_, ?_, ?_, ?_⟩ <;>
      simp [lookupKey]
  | some u =>
    by_cases hu : u = ""
    · subst hu
      refine ⟨[("event_id", JVal.s eid), ("timestamp", JVal.s ts),
        ("event_type", JVal.s et), ("details", det)],
        by simp [log_event_at], hline _, ?_, ?_, ?_, ?_, ?_⟩ <;>
        simp [lookupKey]
    · refine ⟨[("event_id", JVal.s eid), ("timestamp", JVal.s ts),
        ("event_type", JVal.s et), ("details", det), ("user_id", JVal.s u)],
        by simp [log_event_at, hu], hline _, ?_, ?_, ?_, ?_, ?_⟩ <;>
        simp [lookupKey, hu]
